import Mathlib

/-!
Verification of the flappy-bird NEAT training harness
(`src/flappy_bird_ai.py`) against its natural-language specification.

The Python source is shallowly embedded below.  Python floats are modelled
as rationals (`ℚ`); all constants appearing in the program (`-10.5`, `1.5`,
`16`, `-2`, `0.1`, `5`, `-1`, `200`, `600`, `730`, `500`, ...) are exact in
this model.  Quantities that come from image assets absent from the
repository snapshot (sprite widths and heights) are carried as parameters.

Mutable-list iteration: the harness iterates `for x, bird in
enumerate(birds)` while calling `birds.pop(x)` (and the parallel
`nets.pop(x)` / `ge.pop(x)`) in the loop body.  CPython's list iterator
keeps a cursor into the live list, so after a `pop(x)` the element that
slides into slot `x` is never yielded: a removal makes the scan skip the
entry immediately following the removed one.  The scan functions below
(`collideScan`, `oobScan`) encode exactly this cursor semantics.  The three
parallel lists `birds` / `nets` / `ge` are always indexed and popped at the
same position `x`, so they are modelled as one list of aligned `Member`
rows.
-/

/-- One NEAT genome as the harness sees it: a mutable fitness accumulator
(`g.fitness` in the source). -/
structure Genome where
  fitness : ℚ
  deriving DecidableEq, Repr

/-- The `Bird` class: position, tilt, tick counter since the last jump,
vertical velocity and the y recorded at the last jump (`self.height`).
The animation fields `img_count` / `img` only affect drawing and are not
part of the model; the sprite height enters as a parameter where used. -/
structure Bird where
  x : ℚ
  y : ℚ
  tilt : ℚ
  tick_count : ℕ
  velocity : ℚ
  height : ℚ
  deriving DecidableEq, Repr

/-- `Bird.__init__(x, y)`. -/
def Bird.start (x y : ℚ) : Bird :=
  { x := x, y := y, tilt := 0, tick_count := 0, velocity := 0, height := y }

/-- `Bird.jump`: velocity `-10.5`, tick counter reset, jump reference height
recorded. -/
def Bird.jump (b : Bird) : Bird :=
  { b with velocity := -21/2, tick_count := 0, height := b.y }

/-- The clamp `if d >= 16: d = 16` in `Bird.move`. -/
def clamp16 (d : ℚ) : ℚ :=
  if 16 ≤ d then 16 else d

/-- The upward exaggeration `if d < 0: d -= 2` in `Bird.move`. -/
def upBoost (d : ℚ) : ℚ :=
  if d < 0 then d - 2 else d

/-- The displacement computed by `Bird.move` for a velocity `v` and tick
count `t`: `d = v*t + 1.5*t**2`, clamped at 16, then decreased by 2 when
negative. -/
def displacement (v : ℚ) (t : ℕ) : ℚ :=
  upBoost (clamp16 (v * t + 3/2 * (t : ℚ) ^ 2))

/-- `Bird.move`: increment the tick counter, apply the displacement to `y`,
then update the tilt: while `d < 0` or `y < height + 50` snap the tilt up
to 25 (`MAX_ROTATION`); otherwise, while the tilt is above `-90`, decay it
by 20 (`ROTATION_VELOCITY`). -/
def Bird.move (b : Bird) : Bird :=
  let tc := b.tick_count + 1
  let d := displacement b.velocity tc
  let y := b.y + d
  let tilt :=
    if d < 0 ∨ y < b.height + 50 then
      if b.tilt < 25 then (25 : ℚ) else b.tilt
    else
      if -90 < b.tilt then b.tilt - 20 else b.tilt
  { b with tick_count := tc, y := y, tilt := tilt }

/-- The `Pipe` class.  `topH` is the height of the (scaled) top pipe sprite,
an asset constant not present in the repository snapshot; `h` is the random
`height` drawn by `set_height` (from `randrange(50, 450)`), carried as a
parameter so tests can fix it.  `bottom = height + GAP` with `GAP = 200`. -/
structure Pipe where
  x : ℚ
  height : ℚ
  top : ℚ
  bottom : ℚ
  passed : Bool
  deriving DecidableEq, Repr

/-- `Pipe.__init__(x)` followed by `set_height` with the random draw `h`. -/
def Pipe.make (topH x h : ℚ) : Pipe :=
  { x := x, height := h, top := h - topH, bottom := h + 200, passed := false }

/-- `Pipe.move`: `self.x -= self.VELOCITY` with `VELOCITY = 5`. -/
def Pipe.move (p : Pipe) : Pipe :=
  { p with x := p.x - 5 }

/-- The observation tuple passed to `net.activate` in `eval_genomes`
(line 325): `(bird.y, abs(bird.y - pipe.height), abs(bird.y - pipe.bottom))`.
Note the `abs`: both distance components are unsigned. -/
def observation (b : Bird) (p : Pipe) : ℚ × ℚ × ℚ :=
  (b.y, |b.y - p.height|, |b.y - p.bottom|)

/-- Modelled from the spec: the spec's §3 controller interface describes the
observation as the agent's y together with the *signed* vertical distances
from the agent's y to the gap-top surface and to the gap-bottom surface.
This definition follows the spec's words and is compared against the
`observation` actually built by the code. -/
def observationSpec (b : Bird) (p : Pipe) : ℚ × ℚ × ℚ :=
  (b.y, b.y - p.height, b.y - p.bottom)

/-- One row of the population: the source keeps three parallel lists
`birds`, `nets`, `ge` that are always indexed and popped at the same
position, i.e. an ordered collection of (bird, controller, genome)
associations.  `ν` is the opaque controller type. -/
structure Member (ν : Type) where
  bird : Bird
  net : ν
  genome : Genome
  deriving DecidableEq, Repr

/-- The bird-movement / controller-query loop of `eval_genomes`
(lines 320-328): for each population row in order, `bird.move()`,
`ge[x].fitness += 0.1`, query the controller on `observation` of the moved
bird and the lookahead pipe, and `bird.jump()` when the output
exceeds `0.5`.  No rows are added or removed here. -/
def moveStage {ν : Type} (act : ν → ℚ × ℚ × ℚ → ℚ) (p : Pipe) :
    List (Member ν) → List (Member ν)
  | [] => []
  | m :: rest =>
    let b1 := m.bird.move
    let g1 := { m.genome with fitness := m.genome.fitness + 1/10 }
    let b2 := if 1/2 < act m.net (observation b1 p) then b1.jump else b1
    { bird := b2, net := m.net, genome := g1 } :: moveStage act p rest

/-- The `pipe.passed` / `add_pipe` update of lines 345-347: if the pipe is
not yet passed and `pipe.x < bird.x`, set both flags. -/
def passUpd (p : Pipe) (b : Bird) (passed add : Bool) : Bool × Bool :=
  if !passed && decide (p.x < b.x) then (true, true) else (passed, add)

/-- Result of scanning one pipe against the population (lines 334-347).
`removed` collects the genomes popped by collision (after their `-= 1`),
and `scanned` collects the birds the iterator actually yielded; both are
observations of the scan, not part of the mutable program state. -/
structure ScanOut (ν : Type) where
  members : List (Member ν)
  passed : Bool
  addPipe : Bool
  removed : List Genome
  scanned : List Bird
  deriving DecidableEq, Repr

/-- The inner `for x, bird in enumerate(birds)` loop of lines 334-347 for
one pipe, with `collide` standing for the pixel-mask test `pipe.collide`.
On a collision the row's genome takes `-1` fitness and the row is popped
from all three lists; per CPython iterator semantics the entry that slides
into the popped slot is kept but never yielded (it is consed to the output
without being scanned).  The pass check (lines 345-347) runs in the same
iteration, also for a row that was just popped. -/
def collideScan {ν : Type} (c : Pipe → Bird → Bool) (p : Pipe) :
    List (Member ν) → Bool → Bool → ScanOut ν
  | [], passed, add =>
    { members := [], passed := passed, addPipe := add, removed := [], scanned := [] }
  | m :: rest, passed, add =>
    if c p m.bird then
      let gDead := { m.genome with fitness := m.genome.fitness - 1 }
      let pa := passUpd p m.bird passed add
      match rest with
      | [] =>
        { members := [], passed := pa.1, addPipe := pa.2,
          removed := [gDead], scanned := [m.bird] }
      | skipped :: rest2 =>
        let o := collideScan c p rest2 pa.1 pa.2
        { members := skipped :: o.members, passed := o.passed,
          addPipe := o.addPipe, removed := gDead :: o.removed,
          scanned := m.bird :: o.scanned }
    else
      let pa := passUpd p m.bird passed add
      let o := collideScan c p rest pa.1 pa.2
      { members := m :: o.members, passed := o.passed, addPipe := o.addPipe,
        removed := o.removed, scanned := m.bird :: o.scanned }

/-- The out-of-bounds removal loop of lines 365-370: pop rows whose bird
hit the floor (`bird.y + bird.img.get_height() > 730`, with `bh` the sprite
height asset constant) or flew above the ceiling (`bird.y < 0`).  Same
CPython pop-during-iteration semantics as `collideScan`; no fitness field
is touched.  Returns the surviving rows and the popped rows. -/
def oobScan {ν : Type} (bh : ℚ) :
    List (Member ν) → List (Member ν) × List (Member ν)
  | [] => ([], [])
  | m :: rest =>
    if 730 < m.bird.y + bh ∨ m.bird.y < 0 then
      match rest with
      | [] => ([], [m])
      | skipped :: rest2 =>
        let o := oobScan bh rest2
        (skipped :: o.1, m :: o.2)
    else
      let o := oobScan bh rest
      (m :: o.1, o.2)

/-- The outer `for pipe in pipes` loop of lines 333-353: scan the pipe
against the population (threading the global `add_pipe` flag), record
whether the pipe is fully off-screen (`pipe.x + pipe.PIPE_TOP.get_width()
< 0`, with `pipeW` the sprite-width asset constant — this is the `rem`
list), then `pipe.move()`.  Returns the moved pipes each paired with its
`rem` mark, the surviving population, and the `add_pipe` flag. -/
def pipesStage {ν : Type} (c : Pipe → Bird → Bool) (pipeW : ℚ) :
    List Pipe → List (Member ν) → Bool →
    List (Pipe × Bool) × List (Member ν) × Bool
  | [], ms, add => ([], ms, add)
  | p :: ps, ms, add =>
    let o := collideScan c p ms p.passed add
    let remMark := decide (p.x + pipeW < 0)
    let p1 := Pipe.move { p with passed := o.passed }
    let rest := pipesStage c pipeW ps o.members o.addPipe
    ((p1, remMark) :: rest.1, rest.2)

/-- Lines 355-363: if the `add_pipe` flag is set this tick, increment the
score, give every genome still in `ge` a `+5` fitness bonus and append one
fresh `Pipe(600)`; then delete the pipes collected in `rem` (the marked
ones).  `topH` / `newH` are the sprite height and the new pipe's random
height draw. -/
def spawnAndPrune {ν : Type} (topH newH : ℚ) (add : Bool) (score : ℕ)
    (ms : List (Member ν)) (marked : List (Pipe × Bool)) :
    ℕ × List (Member ν) × List Pipe :=
  let kept := (marked.filter fun pr => !pr.2).map Prod.fst
  if add then
    (score + 1,
     ms.map fun m =>
       { m with genome := { m.genome with fitness := m.genome.fitness + 5 } },
     kept ++ [Pipe.make topH 600 newH])
  else
    (score, ms, kept)

/-- The `Base` class: the two ground tiles.  `W` (`BASE_IMG.get_width()`)
is an asset constant carried as a parameter. -/
structure Base where
  y : ℤ
  x1 : ℤ
  x2 : ℤ
  deriving DecidableEq, Repr

/-- `Base.__init__(y)`: tiles at offsets `0` and `WIDTH`. -/
def Base.start (W y : ℤ) : Base :=
  { y := y, x1 := 0, x2 := W }

/-- `Base.move`: both tiles scroll left by `VELOCITY = 5`; a tile whose
trailing edge passed the left boundary is repositioned directly after the
other tile.  The second test reads the already-updated `x1`, exactly as in
the source. -/
def Base.move (W : ℤ) (b : Base) : Base :=
  let x1 := b.x1 - 5
  let x2 := b.x2 - 5
  let x1 := if x1 + W < 0 then x2 + W else x1
  let x2 := if x2 + W < 0 then x1 + W else x2
  { b with x1 := x1, x2 := x2 }

/-- Iterated `Base.move`. -/
def Base.moveN (W : ℤ) : ℕ → Base → Base
  | 0, b => b
  | n + 1, b => Base.moveN W n (Base.move W b)

/-- The lookahead index of lines 312-315: `pipe_ind = 1` when there is more
than one pipe and the first bird is past the first pipe's right edge
(`birds[0].x > pipes[0].x + pipes[0].PIPE_TOP.get_width()`), else `0`. -/
def pipeIndex {ν : Type} (pipeW : ℚ) (ms : List (Member ν)) (ps : List Pipe) : ℕ :=
  match ms, ps with
  | m :: _, p0 :: _ :: _ => if p0.x + pipeW < m.bird.x then 1 else 0
  | _, _ => 0

/-- How a tick begins (lines 302-318).  A `QUIT` event runs
`pygame.quit(); quit()`: the whole process terminates and `eval_genomes`
never returns.  Otherwise, an empty population sets `run = False` and
breaks out of the loop, so the call returns with the genomes (which carry
fitness) as they stand.  Otherwise the tick proceeds. -/
inductive TickStart where
  | exitProcess : TickStart
  | completeWith : List Genome → TickStart
  | proceed : TickStart
  deriving DecidableEq, Repr

/-- Whether a tick start is the clean Episode-Complete transition. -/
def TickStart.isComplete : TickStart → Bool
  | .completeWith _ => true
  | _ => false

/-- The top-of-tick gate: the event pump (lines 305-309) followed by the
population check (lines 313-318).  `quitSignal` abstracts "a `pygame.QUIT`
event was pumped this tick". -/
def tickGate {ν : Type} (quitSignal : Bool) (ms : List (Member ν)) : TickStart :=
  if quitSignal then .exitProcess
  else if 0 < ms.length then .proceed
  else .completeWith (ms.map Member.genome)

/-- The whole mutable state of one episode of `eval_genomes`. -/
structure EpisodeState (ν : Type) where
  members : List (Member ν)
  pipes : List Pipe
  base : Base
  score : ℕ
  deriving Repr

/-- The body of one tick once the gate lets it proceed: lookahead pipe,
movement/controller stage, per-pipe collision-and-pass scans, pass-event
effects and pipe pruning, out-of-bounds removals, ground scroll
(lines 312-373; drawing is an external hook with no effect on this state).
`c` is the pixel collision test, `act` the controller interface, and the
remaining parameters the asset constants and the new pipe's random
height. -/
def tickBody {ν : Type} (c : Pipe → Bird → Bool) (act : ν → ℚ × ℚ × ℚ → ℚ)
    (pipeW topH newH bh : ℚ) (W : ℤ) (st : EpisodeState ν) : EpisodeState ν :=
  let look := (st.pipes.get? (pipeIndex pipeW st.members st.pipes)).getD
    (Pipe.make topH 600 newH)
  let ms1 := moveStage act look st.members
  let ps := pipesStage c pipeW st.pipes ms1 false
  let sp := spawnAndPrune topH newH ps.2.2 st.score ps.2.1 ps.1
  let ob := oobScan bh sp.2.1
  { members := ob.1, pipes := sp.2.2, base := Base.move W st.base,
    score := sp.1 }

/-- One full tick of the `while run` loop: the gate first; on `QUIT` the
process dies with the state untouched, on an empty population the episode
completes with the state untouched, otherwise the tick body runs. -/
def runTick {ν : Type} (c : Pipe → Bird → Bool) (act : ν → ℚ × ℚ × ℚ → ℚ)
    (pipeW topH newH bh : ℚ) (W : ℤ) (quitSignal : Bool)
    (st : EpisodeState ν) : TickStart × EpisodeState ν :=
  match tickGate quitSignal st.members with
  | .exitProcess => (.exitProcess, st)
  | .completeWith m => (.completeWith m, st)
  | .proceed => (.proceed, tickBody c act pipeW topH newH bh W st)

/-- The two operations a harness can apply to a `Bird`. -/
inductive BirdOp where
  | jump : BirdOp
  | move : BirdOp
  deriving DecidableEq, Repr

/-- Apply one operation. -/
def BirdOp.apply : BirdOp → Bird → Bird
  | .jump, b => b.jump
  | .move, b => b.move

/-- Apply a sequence of jump/move operations left to right. -/
def runOps (ops : List BirdOp) (b : Bird) : Bird :=
  ops.foldl (fun b op => op.apply b) b

lemma clamp16_le (d : ℚ) : clamp16 d ≤ 16 := by
  unfold clamp16
  split <;> linarith

lemma clamp16_mono {a b : ℚ} (h : a ≤ b) : clamp16 a ≤ clamp16 b := by
  unfold clamp16
  split_ifs <;> linarith

lemma upBoost_le {a : ℚ} (h : a ≤ 16) : upBoost a ≤ 16 := by
  unfold upBoost
  split <;> linarith

lemma upBoost_mono {a b : ℚ} (h : a ≤ b) : upBoost a ≤ upBoost b := by
  unfold upBoost
  split_ifs <;> linarith

/-- Claim C5: the displacement computed by `Bird.move` for velocity `v` at
tick count `t` is `v*t + 1.5*t²` clamped above at 16 and decreased by a
further 2 when negative; hence it never exceeds 16, and for the post-jump
velocity `-10.5` it is non-decreasing in `t` once `t` is past the
velocity's zero-crossing (`t = 3.5`, so from `t = 4` on).  The last
conjunct ties the formula to the state transition: `move` adds exactly
this displacement to `y`. -/
theorem C5_displacement_props :
    (∀ (v : ℚ) (t : ℕ), displacement v t ≤ 16)
    ∧ (∀ t : ℕ, 4 ≤ t → displacement (-21/2) t ≤ displacement (-21/2) (t + 1))
    ∧ (∀ b : Bird, (Bird.move b).y = b.y + displacement b.velocity (b.tick_count + 1)) := by
  refine ⟨?_, ?_, ?_⟩
  · intro v t
    exact upBoost_le (clamp16_le _)
  · intro t ht
    apply upBoost_mono
    apply clamp16_mono
    have h4 : (4 : ℚ) ≤ (t : ℚ) := by exact_mod_cast ht
    push_cast
    nlinarith [h4]
  · intro b
    rfl

/-- Witness for C5 at concrete inputs: the clamp bound at `v = 0, t = 3`
and one monotonicity step at `t = 4`. -/
theorem C5_witness :
    displacement 0 3 ≤ 16
    ∧ displacement (-21/2) 4 ≤ displacement (-21/2) (4 + 1) :=
  ⟨C5_displacement_props.1 0 3, C5_displacement_props.2.1 4 (by norm_num)⟩

/-- Claim C2 counterexample: for an agent at `y = 100` against a pipe with
gap height 300 (gap bottom 500), the code builds the observation
`(100, 200, 400)` while the spec's signed observation is
`(100, -200, -400)`; the controller's input does not carry the sign, so it
cannot distinguish being above from being below a surface. -/
theorem C2_counterexample :
    observation (Bird.start 230 100) (Pipe.make 320 600 300) = (100, 200, 400)
    ∧ observationSpec (Bird.start 230 100) (Pipe.make 320 600 300) = (100, -200, -400)
    ∧ observation (Bird.start 230 100) (Pipe.make 320 600 300)
        ≠ observationSpec (Bird.start 230 100) (Pipe.make 320 600 300) := by
  refine ⟨?_, ?_, ?_⟩
  · norm_num [observation, Bird.start, Pipe.make, abs_of_nonpos]
  · norm_num [observationSpec, Bird.start, Pipe.make]
  · norm_num [observation, observationSpec, Bird.start, Pipe.make,
      Prod.ext_iff, abs_of_nonpos]

/-- Claim C2 (amended): the observation vector passed to the controller is
the agent's y together with the *absolute* (unsigned) vertical distances
to the lookahead pipe's gap top and gap bottom: componentwise it is the
absolute value of the spec's signed observation, so the sign information
distinguishing above from below is not delivered. -/
theorem C2_amended (b : Bird) (p : Pipe) :
    observation b p
      = ((observationSpec b p).1, |(observationSpec b p).2.1|,
          |(observationSpec b p).2.2|) :=
  rfl

/-- The tilt values reachable from a fresh bird: `25 - 20k` (after a snap
to the 25° cap, decayed `k` times, stopping once the value passes `-90`)
or `-20k` (pure decay from the initial 0). -/
def TiltInv (q : ℚ) : Prop :=
  ∃ k : ℕ, (q = 25 - 20 * k ∧ k ≤ 6) ∨ (q = -(20 * k) ∧ k ≤ 5)

lemma tiltInv_zero : TiltInv 0 :=
  ⟨0, Or.inr (by norm_num)⟩

lemma tiltInv_25 : TiltInv 25 :=
  ⟨0, Or.inl (by norm_num)⟩

lemma tiltInv_decay {q : ℚ} (h : TiltInv q) (hq : -90 < q) : TiltInv (q - 20) := by
  obtain ⟨k, hk | hk⟩ := h
  · have h1 := hq
    rw [hk.1] at h1
    have h2 : (k : ℚ) < 6 := by linarith
    have h3 : k < 6 := by exact_mod_cast h2
    refine ⟨k + 1, Or.inl ⟨?_, by omega⟩⟩
    push_cast
    rw [hk.1]
    ring
  · have h1 := hq
    rw [hk.1] at h1
    have h2 : (k : ℚ) < 5 := by linarith
    have h3 : k < 5 := by exact_mod_cast h2
    refine ⟨k + 1, Or.inr ⟨?_, by omega⟩⟩
    push_cast
    rw [hk.1]
    ring

lemma tiltInv_bounds {q : ℚ} (h : TiltInv q) : -100 ≤ q ∧ q ≤ 25 := by
  obtain ⟨k, hk | hk⟩ := h
  · have h6 : (k : ℚ) ≤ 6 := by exact_mod_cast hk.2
    have hk0 : (0 : ℚ) ≤ (k : ℚ) := Nat.cast_nonneg k
    constructor <;> (rw [hk.1]; linarith)
  · have h5 : (k : ℚ) ≤ 5 := by exact_mod_cast hk.2
    have hk0 : (0 : ℚ) ≤ (k : ℚ) := Nat.cast_nonneg k
    constructor <;> (rw [hk.1]; linarith)

lemma tiltInv_step (op : BirdOp) (b : Bird) (h : TiltInv b.tilt) :
    TiltInv (op.apply b).tilt := by
  cases op
  · exact h
  · show TiltInv (Bird.move b).tilt
    unfold Bird.move
    dsimp only
    split_ifs with h1 h2 h3
    · exact tiltInv_25
    · exact h
    · exact tiltInv_decay h h3
    · exact h

lemma tiltInv_runOps (ops : List BirdOp) (b : Bird) (h : TiltInv b.tilt) :
    TiltInv (runOps ops b).tilt := by
  induction ops generalizing b with
  | nil => exact h
  | cons op rest ih => exact ih (op.apply b) (tiltInv_step op b h)

/-- Claim C8 counterexample: a bird created at (230, 350) that never jumps
snaps its tilt to 25° while still within 50 units of its start, then
decays by 20° per tick: after 10 moves the tilt is `-95°`, strictly below
the claimed floor of `-90°` (the decay guard `tilt > -90` lets the tilt
overshoot past `-90` by one step). -/
theorem C8_counterexample :
    (runOps (List.replicate 10 BirdOp.move) (Bird.start 230 350)).tilt = -95
    ∧ ¬ (-90 : ℚ) ≤ (runOps (List.replicate 10 BirdOp.move) (Bird.start 230 350)).tilt := by
  have h : (runOps (List.replicate 10 BirdOp.move) (Bird.start 230 350)).tilt = -95 := by
    norm_num [runOps, List.replicate, List.foldl, BirdOp.apply, Bird.move,
      Bird.start, displacement, clamp16, upBoost]
  exact ⟨h, by rw [h]; norm_num⟩

/-- Claim C8 (amended): for every sequence of `jump` and `move` operations
applied to a fresh bird (tilt 0), the tilt stays within `[-100°, 25°]`:
the snap-up branch caps it at 25°, and the decay branch, which only fires
while the tilt is still above `-90°`, can overshoot to at most one 20°
step past `-90°` (never below `-100°`; from the reachable values the
lowest actually attained is `-95°`). -/
theorem C8_amended :
    ∀ (ops : List BirdOp) (x y : ℚ),
      -100 ≤ (runOps ops (Bird.start x y)).tilt
      ∧ (runOps ops (Bird.start x y)).tilt ≤ 25 := by
  intro ops x y
  exact tiltInv_bounds (tiltInv_runOps ops (Bird.start x y) tiltInv_zero)

/-- Invariant of the two ground tiles: they are adjacent (one starts where
the other ends) and the left tile's span still reaches x = 0. -/
def BaseInv (W : ℤ) (b : Base) : Prop :=
  (b.x2 = b.x1 + W ∧ b.x1 ≤ 0 ∧ 0 ≤ b.x1 + W)
  ∨ (b.x1 = b.x2 + W ∧ b.x2 ≤ 0 ∧ 0 ≤ b.x2 + W)

lemma baseInv_start (W y : ℤ) (hW : 500 ≤ W) : BaseInv W (Base.start W y) := by
  unfold BaseInv Base.start
  dsimp only
  omega

lemma baseInv_move (W : ℤ) (hW : 500 ≤ W) (b : Base) (h : BaseInv W b) :
    BaseInv W (Base.move W b) := by
  obtain ⟨y, x1, x2⟩ := b
  unfold BaseInv at h ⊢
  unfold Base.move
  dsimp only at h ⊢
  split_ifs <;> omega

lemma baseInv_moveN (W : ℤ) (hW : 500 ≤ W) (n : ℕ) (b : Base) (h : BaseInv W b) :
    BaseInv W (Base.moveN W n b) := by
  induction n generalizing b with
  | zero => exact h
  | succ n ih => exact ih (Base.move W b) (baseInv_move W hW b h)

/-- Claim C9: starting from tile offsets 0 and `W` (the tile width, an
asset constant, here any width at least the 500-unit window), after any
number of `Base.move` steps the two tile spans
`[x1, x1+W] ∪ [x2, x2+W]` cover every point of the visible width
`[0, 500]`, and the two tiles stay adjacent (each wraparound repositions
the off-screen tile to the other tile's offset plus the width), so there
is never a gap and there are exactly the two tiles `x1`, `x2`. -/
theorem C9_ground_coverage :
    ∀ (W y0 : ℤ), 500 ≤ W → ∀ (n : ℕ) (p : ℤ), 0 ≤ p → p ≤ 500 →
      (((Base.moveN W n (Base.start W y0)).x1 ≤ p
          ∧ p ≤ (Base.moveN W n (Base.start W y0)).x1 + W)
        ∨ ((Base.moveN W n (Base.start W y0)).x2 ≤ p
          ∧ p ≤ (Base.moveN W n (Base.start W y0)).x2 + W))
      ∧ ((Base.moveN W n (Base.start W y0)).x2
            = (Base.moveN W n (Base.start W y0)).x1 + W
        ∨ (Base.moveN W n (Base.start W y0)).x1
            = (Base.moveN W n (Base.start W y0)).x2 + W) := by
  intro W y0 hW n p hp0 hp5
  have h := baseInv_moveN W hW n (Base.start W y0) (baseInv_start W y0 hW)
  unfold BaseInv at h
  omega

/-- Witness for C9 with the real asset width 672 (the scaled base sprite),
one tick in, at the left edge of the window. -/
theorem C9_witness :
    (((Base.moveN 672 1 (Base.start 672 730)).x1 ≤ 0
        ∧ 0 ≤ (Base.moveN 672 1 (Base.start 672 730)).x1 + 672)
      ∨ ((Base.moveN 672 1 (Base.start 672 730)).x2 ≤ 0
        ∧ 0 ≤ (Base.moveN 672 1 (Base.start 672 730)).x2 + 672))
    ∧ ((Base.moveN 672 1 (Base.start 672 730)).x2
          = (Base.moveN 672 1 (Base.start 672 730)).x1 + 672
      ∨ (Base.moveN 672 1 (Base.start 672 730)).x1
          = (Base.moveN 672 1 (Base.start 672 730)).x2 + 672) :=
  C9_ground_coverage 672 730 (by norm_num) 1 0 (by norm_num) (by norm_num)

lemma passUpd_fst (p : Pipe) (b : Bird) (passed add : Bool) :
    (passUpd p b passed add).1 = (passed || decide (p.x < b.x)) := by
  unfold passUpd
  cases passed <;> by_cases h : p.x < b.x <;> simp [h]

lemma passUpd_snd_true (p : Pipe) (b : Bird) (passed : Bool) :
    (passUpd p b passed true).2 = true := by
  unfold passUpd
  split <;> rfl

lemma oobScan_last {ν : Type} (bh : ℚ) (m : Member ν)
    (h : 730 < m.bird.y + bh ∨ m.bird.y < 0) :
    oobScan bh [m] = ([], [m]) := by
  rw [oobScan.eq_2, if_pos h]

lemma oobScan_skip {ν : Type} (bh : ℚ) (m sk : Member ν) (rest2 : List (Member ν))
    (h : 730 < m.bird.y + bh ∨ m.bird.y < 0) :
    oobScan bh (m :: sk :: rest2)
      = (sk :: (oobScan bh rest2).1, m :: (oobScan bh rest2).2) := by
  rw [oobScan.eq_3, if_pos h]

lemma oobScan_keep {ν : Type} (bh : ℚ) (m : Member ν) (rest : List (Member ν))
    (h : ¬(730 < m.bird.y + bh ∨ m.bird.y < 0)) :
    oobScan bh (m :: rest) = (m :: (oobScan bh rest).1, (oobScan bh rest).2) := by
  cases rest with
  | nil => rw [oobScan.eq_2, if_neg h]
  | cons sk rest2 => rw [oobScan.eq_3, if_neg h]

lemma collideScan_hit_last {ν : Type} (c : Pipe → Bird → Bool) (p : Pipe)
    (m : Member ν) (passed add : Bool) (h : c p m.bird = true) :
    collideScan c p [m] passed add
      = { members := [], passed := (passUpd p m.bird passed add).1,
          addPipe := (passUpd p m.bird passed add).2,
          removed := [{ m.genome with fitness := m.genome.fitness - 1 }],
          scanned := [m.bird] } := by
  rw [collideScan.eq_2, if_pos h]

lemma collideScan_hit_skip {ν : Type} (c : Pipe → Bird → Bool) (p : Pipe)
    (m sk : Member ν) (rest2 : List (Member ν)) (passed add : Bool)
    (h : c p m.bird = true) :
    collideScan c p (m :: sk :: rest2) passed add
      = (let pa := passUpd p m.bird passed add
         let o := collideScan c p rest2 pa.1 pa.2
         { members := sk :: o.members, passed := o.passed,
           addPipe := o.addPipe,
           removed := { m.genome with fitness := m.genome.fitness - 1 } :: o.removed,
           scanned := m.bird :: o.scanned }) := by
  rw [collideScan.eq_2, if_pos h]

lemma collideScan_miss {ν : Type} (c : Pipe → Bird → Bool) (p : Pipe)
    (m : Member ν) (rest : List (Member ν)) (passed add : Bool)
    (h : ¬ c p m.bird = true) :
    collideScan c p (m :: rest) passed add
      = (let pa := passUpd p m.bird passed add
         let o := collideScan c p rest pa.1 pa.2
         { members := m :: o.members, passed := o.passed, addPipe := o.addPipe,
           removed := o.removed, scanned := m.bird :: o.scanned }) := by
  rw [collideScan.eq_2, if_neg h]

/-- Claim C10: the out-of-bounds removal loop drops rows but writes
nothing: every surviving row and every removed row of the output is an
unmodified element of the input population (in particular the removed
rows' fitness records carry no `-1` or any other adjustment, unlike
collision removal), and every input row ends up on exactly one side
(kept count plus removed count equals the input count, and the kept rows
keep their relative order). -/
theorem C10_oob_removal_frame {ν : Type} (bh : ℚ) (ms : List (Member ν)) :
    (∀ m ∈ (oobScan bh ms).1, m ∈ ms)
    ∧ (∀ m ∈ (oobScan bh ms).2, m ∈ ms)
    ∧ (oobScan bh ms).1.length + (oobScan bh ms).2.length = ms.length
    ∧ (oobScan bh ms).1.Sublist ms := by
  induction ms using oobScan.induct bh with
  | case1 => simp [oobScan]
  | case2 m h =>
    rw [oobScan_last bh m h]
    simp
  | case3 m h sk rest2 ih =>
    obtain ⟨ih1, ih2, ih3, ih4⟩ := ih
    rw [oobScan_skip bh m sk rest2 h]
    refine ⟨?_, ?_, ?_, ?_⟩
    · intro a ha
      rcases List.mem_cons.1 ha with rfl | ha
      · simp
      · simp [List.mem_cons, ih1 a ha]
    · intro a ha
      rcases List.mem_cons.1 ha with rfl | ha
      · simp
      · simp [List.mem_cons, ih2 a ha]
    · simp only [List.length_cons]
      omega
    · exact List.Sublist.cons _ (List.Sublist.cons₂ _ ih4)
  | case4 m rest h ih =>
    obtain ⟨ih1, ih2, ih3, ih4⟩ := ih
    rw [oobScan_keep bh m rest h]
    refine ⟨?_, ?_, ?_, ?_⟩
    · intro a ha
      rcases List.mem_cons.1 ha with rfl | ha
      · simp
      · simp [List.mem_cons, ih1 a ha]
    · intro a ha
      simp [List.mem_cons, ih2 a ha]
    · simp only [List.length_cons]
      omega
    · exact List.Sublist.cons₂ _ ih4

lemma collideScan_passed_char {ν : Type} (c : Pipe → Bird → Bool) (p : Pipe)
    (ms : List (Member ν)) (passed add : Bool) :
    (collideScan c p ms passed add).passed
      = (passed || (collideScan c p ms passed add).scanned.any
          fun b => decide (p.x < b.x)) := by
  induction ms, passed, add using collideScan.induct c p with
  | case1 passed add =>
    simp [collideScan]
  | case2 m passed add h =>
    rw [collideScan_hit_last c p m passed add h]
    simp [passUpd_fst]
  | case3 m passed add h pa sk rest2 ih =>
    rw [collideScan_hit_skip c p m sk rest2 passed add h]
    simp only []
    rw [ih, passUpd_fst]
    simp [Bool.or_assoc]
  | case4 m rest passed add h pa ih =>
    rw [collideScan_miss c p m rest passed add h]
    simp only []
    rw [ih, passUpd_fst]
    simp [Bool.or_assoc]

lemma collideScan_no_hit_scanned {ν : Type} (c : Pipe → Bird → Bool) (p : Pipe)
    (ms : List (Member ν)) (hms : ∀ m ∈ ms, c p m.bird = false) :
    ∀ passed add : Bool,
      (collideScan c p ms passed add).scanned = ms.map Member.bird := by
  induction ms with
  | nil =>
    intro passed add
    simp [collideScan]
  | cons m rest ih =>
    intro passed add
    have hm : ¬ c p m.bird = true := by
      simp [hms m (List.mem_cons_self m rest)]
    rw [collideScan_miss c p m rest passed add hm]
    simp only [List.map_cons, List.cons.injEq, true_and]
    exact ih (fun a ha => hms a (List.mem_cons_of_mem m ha)) _ _

/-- Claim C3 counterexample: with a pipe at `x = 229` and an agent at
`x = 230` (no collision), the scan sets the pass flag — yet the pipe's
right edge has *not* moved past the agent: `229 + w ≥ 230` both for the
real sprite width `w = 104` and for any width of at least one unit.  The
code's trigger is the left edge `pipe.x < bird.x`, not the right edge. -/
theorem C3_counterexample :
    (collideScan (fun _ _ => false) (Pipe.make 320 229 300)
        [⟨Bird.start 230 350, (0 : ℕ), ⟨0⟩⟩] false false).passed = true
    ∧ ¬ ((229 : ℚ) + 104 < 230)
    ∧ ¬ ((229 : ℚ) + 1 < 230) := by
  refine ⟨?_, by norm_num, by norm_num⟩
  norm_num [collideScan, passUpd, Pipe.make, Bird.start]

/-- Claim C3 (amended): a pipe's `passed` flag comes out of the scan set
exactly when some agent actually visited by the scan has its x strictly
greater than the pipe's x — the pipe's *left* edge, with no sprite-width
offset; and when no agent collides the scan visits every agent in order.
(An agent removed by collision in the same iteration still performs the
pass check; an agent skipped by the removal's index shift does not.) -/
theorem C3_amended {ν : Type} (c : Pipe → Bird → Bool) (p : Pipe)
    (ms : List (Member ν)) (add : Bool) :
    ((collideScan c p ms false add).passed = true
      ↔ ∃ b ∈ (collideScan c p ms false add).scanned, p.x < b.x)
    ∧ ((∀ m ∈ ms, c p m.bird = false)
        → (collideScan c p ms false add).scanned = ms.map Member.bird) := by
  constructor
  · rw [collideScan_passed_char]
    simp [List.any_eq_true]
  · intro h
    exact collideScan_no_hit_scanned c p ms h false add

/-- Witness for C3 (amended) at a concrete input: with no collisions the
single agent is scanned. -/
theorem C3_witness :
    (collideScan (fun _ _ => false) (Pipe.make 320 229 300)
        [⟨Bird.start 230 350, (0 : ℕ), ⟨0⟩⟩] false false).scanned
      = [Bird.start 230 350] :=
  (C3_amended (fun _ _ => false) (Pipe.make 320 229 300)
      [⟨Bird.start 230 350, (0 : ℕ), ⟨0⟩⟩] false).2 (fun _ _ => rfl)

/-- Claim C1: evaluating the scans at two-agent populations in which both
agents qualify for removal.  In the collision scan both agents collide
(`collide` constantly true), yet only the first is visited (`scanned`) and
removed: after `pop(0)` the iterator skips the entry that slid into slot 0,
so the second agent survives the scan it should have been removed by.  The
out-of-bounds scan behaves the same way (both birds are below the ground
line 730, only the first is removed).  This refutes "every agent alive at
the start of the scan is visited exactly once". -/
theorem C1_scan_skip_eval :
    (collideScan (fun _ _ => true) (Pipe.make 320 600 300)
        [⟨Bird.start 230 350, (0 : ℕ), ⟨10⟩⟩, ⟨Bird.start 230 300, 1, ⟨20⟩⟩]
        false false).scanned = [Bird.start 230 350]
    ∧ (collideScan (fun _ _ => true) (Pipe.make 320 600 300)
        [⟨Bird.start 230 350, (0 : ℕ), ⟨10⟩⟩, ⟨Bird.start 230 300, 1, ⟨20⟩⟩]
        false false).members = [⟨Bird.start 230 300, 1, ⟨20⟩⟩]
    ∧ (oobScan 64 [⟨Bird.start 230 800, (0 : ℕ), ⟨1⟩⟩,
        ⟨Bird.start 230 790, 1, ⟨2⟩⟩]).1 = [⟨Bird.start 230 790, 1, ⟨2⟩⟩] := by
  refine ⟨?_, ?_, ?_⟩
  · norm_num [collideScan, passUpd, Pipe.make, Bird.start]
  · norm_num [collideScan, passUpd, Pipe.make, Bird.start]
  · norm_num [oobScan, Bird.start]

/-- Claim C6: evaluating the collision scan at a population of two agents
that both overlap the pipe's mask (`collide` constantly true).  The first
agent is removed with fitness exactly `7 - 1 = 6` (the `-1` penalty), but
the second agent — whose mask also overlaps — is skipped by the
pop-shifted iterator: it stays in the population with its fitness record
`3` untouched, and so keeps receiving physics updates on later ticks.
This refutes "every agent whose mask overlaps is removed within that same
tick". -/
theorem C6_collision_removal_eval :
    (collideScan (fun _ _ => true) (Pipe.make 320 500 300)
        [⟨Bird.start 100 200, (0 : ℕ), ⟨7⟩⟩, ⟨Bird.start 110 210, 1, ⟨3⟩⟩]
        false false).members = [⟨Bird.start 110 210, 1, ⟨3⟩⟩]
    ∧ (collideScan (fun _ _ => true) (Pipe.make 320 500 300)
        [⟨Bird.start 100 200, (0 : ℕ), ⟨7⟩⟩, ⟨Bird.start 110 210, 1, ⟨3⟩⟩]
        false false).removed = [⟨6⟩]
    ∧ (collideScan (fun _ _ => true) (Pipe.make 320 500 300)
        [⟨Bird.start 100 200, (0 : ℕ), ⟨7⟩⟩, ⟨Bird.start 110 210, 1, ⟨3⟩⟩]
        false false).scanned = [Bird.start 100 200] := by
  refine ⟨?_, ?_, ?_⟩ <;> norm_num [collideScan, passUpd, Pipe.make, Bird.start]

lemma collideScan_add_mono {ν : Type} (c : Pipe → Bird → Bool) (p : Pipe)
    (ms : List (Member ν)) (passed add : Bool) :
    add = true → (collideScan c p ms passed add).addPipe = true := by
  induction ms, passed, add using collideScan.induct c p with
  | case1 passed add =>
    intro ha
    simp [collideScan, ha]
  | case2 m passed add h =>
    intro ha
    rw [collideScan_hit_last c p m passed add h]
    subst ha
    exact passUpd_snd_true p m.bird passed
  | case3 m passed add h pa sk rest2 ih =>
    intro ha
    rw [collideScan_hit_skip c p m sk rest2 passed add h]
    apply ih
    subst ha
    exact passUpd_snd_true p m.bird passed
  | case4 m rest passed add h pa ih =>
    intro ha
    rw [collideScan_miss c p m rest passed add h]
    apply ih
    subst ha
    exact passUpd_snd_true p m.bird passed

lemma pipesStage_add_true {ν : Type} (c : Pipe → Bird → Bool) (pipeW : ℚ)
    (ps : List Pipe) (ms : List (Member ν)) :
    (pipesStage c pipeW ps ms true).2.2 = true := by
  induction ps generalizing ms with
  | nil => rfl
  | cons p ps ih =>
    simp only [pipesStage]
    rw [collideScan_add_mono c p ms p.passed true rfl]
    exact ih _

lemma moveStage_fitness {ν : Type} (act : ν → ℚ × ℚ × ℚ → ℚ) (p : Pipe)
    (ms : List (Member ν)) :
    ((moveStage act p ms).map fun m => m.genome.fitness)
      = ms.map fun m => m.genome.fitness + 1/10 := by
  induction ms with
  | nil => rfl
  | cons m rest ih => simp [moveStage, ih]

/-- Claim C4: on a tick whose pass flag is set, the score goes up by
exactly 1, every genome still in `ge` at that point gets exactly `+5`, and
exactly one new pipe is appended, at `x = 600`; with the flag clear none
of these effects happen.  The flag is one Bool threaded through all
(obstacle, agent) pair checks of the tick, so once set it simply stays set
— the effects fire at most once per tick however many pairs triggered —
and the `+5` comes on top of the `+0.1` every agent got in the movement
stage of the same tick. -/
theorem C4_pass_event_effects {ν : Type} (topH newH pipeW : ℚ) (score : ℕ)
    (ms : List (Member ν)) (marked : List (Pipe × Bool))
    (act : ν → ℚ × ℚ × ℚ → ℚ) (p : Pipe) (c : Pipe → Bird → Bool)
    (ps : List Pipe) :
    (spawnAndPrune topH newH true score ms marked).1 = score + 1
    ∧ ((spawnAndPrune topH newH true score ms marked).2.1.map
        fun m => m.genome.fitness) = ms.map (fun m => m.genome.fitness + 5)
    ∧ (spawnAndPrune topH newH true score ms marked).2.2
        = ((marked.filter fun pr => !pr.2).map Prod.fst)
            ++ [Pipe.make topH 600 newH]
    ∧ (Pipe.make topH 600 newH).x = 600
    ∧ (spawnAndPrune topH newH false score ms marked)
        = (score, ms, (marked.filter fun pr => !pr.2).map Prod.fst)
    ∧ (pipesStage c pipeW ps ms true).2.2 = true
    ∧ ((moveStage act p ms).map fun m => m.genome.fitness)
        = ms.map (fun m => m.genome.fitness + 1/10) := by
  refine ⟨rfl, ?_, rfl, rfl, rfl, ?_, ?_⟩
  · show ((ms.map fun m =>
        { m with genome := { m.genome with fitness := m.genome.fitness + 5 } }).map
          fun m => m.genome.fitness) = ms.map (fun m => m.genome.fitness + 5)
    rw [List.map_map]
    rfl
  · exact pipesStage_add_true c pipeW ps ms
  · exact moveStage_fitness act p ms

/-- Claim C7 counterexample: with a quit signal pending at the top of a
tick the harness does not transition to Episode-Complete at all —
`pygame.quit(); quit()` terminates the process, so no (controller →
fitness) mapping is returned to the evolutionary driver. -/
theorem C7_counterexample :
    tickGate true [(⟨Bird.start 230 350, (0 : ℕ), ⟨0⟩⟩ : Member ℕ)]
        = TickStart.exitProcess
    ∧ TickStart.isComplete
        (tickGate true [(⟨Bird.start 230 350, (0 : ℕ), ⟨0⟩⟩ : Member ℕ)])
        = false :=
  ⟨rfl, rfl⟩

/-- Claim C7 (amended): the two terminations differ.  An external quit
signal, observed at the top of the tick, kills the process before any tick
effect is applied — the state is untouched but nothing is returned to the
driver.  Exhaustion of the population (no quit signal, empty member list)
is the clean Episode-Complete transition: the tick applies no further
effects and the (controller → fitness) mapping as it stands is handed
back. -/
theorem C7_amended {ν : Type} (c : Pipe → Bird → Bool)
    (act : ν → ℚ × ℚ × ℚ → ℚ) (pipeW topH newH bh : ℚ) (W : ℤ)
    (st : EpisodeState ν) :
    runTick c act pipeW topH newH bh W true st = (.exitProcess, st)
    ∧ (st.members = [] →
        runTick c act pipeW topH newH bh W false st
          = (.completeWith (st.members.map Member.genome), st)) := by
  constructor
  · rfl
  · intro h
    have hg : tickGate false st.members
        = TickStart.completeWith (st.members.map Member.genome) := by
      rw [h]
      rfl
    simp [runTick, hg]

/-- Witness for C7 (amended): a concrete empty-population state completes
cleanly, returning the (empty) fitness mapping. -/
theorem C7_witness :
    runTick (fun _ _ => true) (fun (_ : ℕ) _ => 0) 104 320 300 64 672 false
        { members := [], pipes := [Pipe.make 320 600 300],
          base := Base.start 672 730, score := 0 }
      = (TickStart.completeWith [],
         { members := [], pipes := [Pipe.make 320 600 300],
           base := Base.start 672 730, score := 0 }) :=
  (C7_amended (fun _ _ => true) (fun (_ : ℕ) _ => 0) 104 320 300 64 672
      { members := [], pipes := [Pipe.make 320 600 300],
        base := Base.start 672 730, score := 0 }).2 rfl
